import Mathlib

/-!
Verification of the Geosift backend aggregation-and-caching pipeline.

The definitions below are a shallow embedding of the Python sources under
`Backend/`: pure functions become Lean functions on `ℚ` (the float
arithmetic of the program is exact decimal arithmetic at every value the
theorems touch, with no round-half-to-even ties, so `ℚ` models it
faithfully), Python dicts become association lists or functions out of a
finite key type, and the cooperative asyncio concurrency of
`analyze_country` becomes an explicit small-step transition relation.
-/

namespace Geosift

/-- The fixed metric-name set of `RawMetrics` (aggregator.py `raw_metrics`
dict literal, in insertion order). -/
inductive Metric where
  | life_expectancy
  | gdp_per_capita
  | population
  | pm25
  | pm10
  | travel_advisory_score
  | temperature
  | humidity
deriving DecidableEq, Repr

/-- String key of each metric, as used by the Python dicts. -/
def metricName : Metric → String
  | .life_expectancy => "life_expectancy"
  | .gdp_per_capita => "gdp_per_capita"
  | .population => "population"
  | .pm25 => "pm25"
  | .pm10 => "pm10"
  | .travel_advisory_score => "travel_advisory_score"
  | .temperature => "temperature"
  | .humidity => "humidity"

/-- Dict insertion order of `raw_metrics` / `metrics_for_scoring` in
aggregator.py. -/
def metricOrder : List Metric :=
  [.life_expectancy, .gdp_per_capita, .population, .pm25, .pm10,
   .travel_advisory_score, .temperature, .humidity]

/-! ### Normalization engine (Backend/services/aggregator.py, the active copy) -/

/-- aggregator.py `_normalize_life_expectancy`. -/
def normalize_life_expectancy : Option ℚ → ℚ
  | none => 0.5
  | some v => max 0 (min 1 ((v - 50) / 35))

/-- aggregator.py `_normalize_gdp_per_capita`. -/
def normalize_gdp_per_capita : Option ℚ → ℚ
  | none => 0.5
  | some v => min (v / 80000) 1

/-- aggregator.py `_normalize_population`. -/
def normalize_population : Option ℚ → ℚ
  | none => 0.5
  | some v => 1 - min (v / 1500000000) 1

/-- aggregator.py `_normalize_pm25`. -/
def normalize_pm25 : Option ℚ → ℚ
  | none => 0.5
  | some v => 1 - min (v / 100) 1

/-- aggregator.py `_normalize_pm10`. -/
def normalize_pm10 : Option ℚ → ℚ
  | none => 0.5
  | some v => 1 - min (v / 100) 1

/-- aggregator.py `_normalize_travel_advisory_score` (0–100 scale). -/
def normalize_travel_advisory_score : Option ℚ → ℚ
  | none => 0.2
  | some v => 1 - v / 100

/-- aggregator.py `_normalize_temperature`. -/
def normalize_temperature : Option ℚ → ℚ
  | none => 0.5
  | some v =>
      if 15 ≤ v ∧ v ≤ 28 then 1
      else if v < 15 then max 0 (1 - (15 - v) / 15)
      else max 0 (1 - (v - 28) / 12)

/-- aggregator.py `_normalize_humidity` (constant 0.5 on present values). -/
def normalize_humidity : Option ℚ → ℚ
  | none => 0.5
  | some _ => 0.5

/-- aggregator.py `_normalize_metrics`: a `RawMetrics` dict (modelled as a
function `Metric → Option ℚ`) to the `NormalizedMetrics` dict. -/
def normalize_metrics (metrics : Metric → Option ℚ) : Metric → ℚ
  | .life_expectancy => normalize_life_expectancy (metrics .life_expectancy)
  | .gdp_per_capita => normalize_gdp_per_capita (metrics .gdp_per_capita)
  | .population => normalize_population (metrics .population)
  | .pm25 => normalize_pm25 (metrics .pm25)
  | .pm10 => normalize_pm10 (metrics .pm10)
  | .travel_advisory_score =>
      normalize_travel_advisory_score (metrics .travel_advisory_score)
  | .temperature => normalize_temperature (metrics .temperature)
  | .humidity => normalize_humidity (metrics .humidity)

/-! ### Python rounding

`round(x, n)` in Python rounds half to even. None of the values the
theorems below evaluate are ties, so the ℚ model below agrees with the
float computation of the source at those points. -/

/-- Round to the nearest integer, ties to even (Python `round`). -/
def roundHalfEven (q : ℚ) : ℤ :=
  let f : ℤ := ⌊q⌋
  if q - (f : ℚ) < 1 / 2 then f
  else if 1 / 2 < q - (f : ℚ) then f + 1
  else if f % 2 = 0 then f else f + 1

/-- Python `round(q, n)` for nonnegative `n`. -/
def pyRound (q : ℚ) (n : ℕ) : ℚ :=
  (roundHalfEven (q * 10 ^ n) : ℚ) / 10 ^ n

/-! ### Weighting engine (Backend/scoring/weighting_engine.py)

Python dicts with string keys become association lists in insertion
order; `weights[k] = v` is `wset`, `weights[k] *= c` is `wmul`,
`sum(weights.values())` is `wsum`, `weights.get(k, 0.0)` is `wlookup`. -/

def wset (k : String) (v : ℚ) (l : List (String × ℚ)) : List (String × ℚ) :=
  l.map fun p => if p.1 = k then (p.1, v) else p

def wmul (k : String) (c : ℚ) (l : List (String × ℚ)) : List (String × ℚ) :=
  l.map fun p => if p.1 = k then (p.1, p.2 * c) else p

def wsum (l : List (String × ℚ)) : ℚ :=
  (l.map Prod.snd).sum

def wlookup (l : List (String × ℚ)) (k : String) : ℚ :=
  ((l.find? fun p => p.1 == k).map Prod.snd).getD 0

/-- weighting_engine.py `get_weights` (the copy the aggregator imports).
The returned dict has no `pm10` key, exactly as in the source. -/
def get_weights (risk_tolerance : String) (duration : String) :
    List (String × ℚ) :=
  let weights : List (String × ℚ) :=
    [("life_expectancy", 0.20), ("gdp_per_capita", 0.20),
     ("population", 0.10), ("pm25", 0.15),
     ("travel_advisory_score", 0.25), ("temperature", 0.10),
     ("humidity", 0.10)]
  let weights :=
    if risk_tolerance = "low" then
      wset "humidity" 0.00 (wset "temperature" 0.15
        (wset "travel_advisory_score" 0.35 (wset "pm25" 0.20
          (wset "population" 0.05 (wset "gdp_per_capita" 0.15
            (wset "life_expectancy" 0.20 weights))))))
    else if risk_tolerance = "high" then
      wset "humidity" 0.00 (wset "temperature" 0.15
        (wset "travel_advisory_score" 0.10 (wset "pm25" 0.10
          (wset "population" 0.15 (wset "gdp_per_capita" 0.30
            (wset "life_expectancy" 0.20 weights))))))
    else weights
  let weights :=
    if duration = "short-term" then
      wmul "population" 0.8 (wmul "life_expectancy" 0.8
        (wmul "travel_advisory_score" 1.2 (wmul "pm25" 1.2
          (wmul "humidity" 1.1 (wmul "temperature" 1.2 weights)))))
    else if duration = "long-term" then
      wmul "travel_advisory_score" 0.9 (wmul "pm25" 0.9
        (wmul "humidity" 0.9 (wmul "temperature" 0.8
          (wmul "population" 1.2 (wmul "gdp_per_capita" 1.2
            (wmul "life_expectancy" 1.2 weights))))))
    else weights
  let total_weight := wsum weights
  if 0 < total_weight then weights.map (fun p => (p.1, p.2 / total_weight))
  else weights

/-! ### Scoring engine (Backend/scoring/scoring_engine.py) -/



/-- scoring_engine.py `score_country`: iterate the metrics dict, look each
weight up with default 0, sum, scale by 100, round to 2 decimals. -/
def score_country (metrics : List (String × ℚ)) (weights : List (String × ℚ)) :
    ℚ :=
  pyRound ((metrics.map fun p => p.2 * wlookup weights p.1).sum * 100) 2

/-! ### The aggregator's fetch pipeline (`_fetch_and_build`)

The external providers are collaborators: their responses enter the
pipeline as parameters. A failed provider fetch is caught by the
`return_exceptions=True` gather and replaced by `{}`, whose `.get` calls
yield `None`; so a failed provider is exactly the all-`none` response. -/

/-- The country-profile payload `fetch_country_profile` hands back on
success (`{country_name, iso2, lat, lon, population}`). -/
structure Profile where
  country_name : Option String
  iso2 : Option String
  lat : Option ℚ
  lon : Option ℚ
  population : Option ℚ
deriving DecidableEq

/-- The World Bank payload (`{life_expectancy, gdp_per_capita}`). -/
structure WBData where
  life_expectancy : Option ℚ
  gdp_per_capita : Option ℚ
deriving DecidableEq

/-- `sub_scores` dict of the result. -/
structure SubScores where
  travel_risk : ℚ
  health_infra : ℚ
  env_stability : ℚ
deriving DecidableEq

/-- The non-empty `result` dict built by `_fetch_and_build`. The
`explanation` field is an f-string rendering of `overall_score` and the
three sub-scores and carries no further data; the `debug_analysis` key is
only attached when `debug_mode=True`, which no claim exercises. -/
structure AnalysisResult where
  country_code : String
  country_name : Option String
  overall_score : ℚ
  sub_scores : SubScores
deriving DecidableEq

/-- A Python result dict: either the empty dict `{}` (identity failure) or
a built `AnalysisResult`; distinct from Python `None`, which is modelled
as `Option.none` one level up. -/
inductive DictVal where
  | empty
  | result (r : AnalysisResult)
deriving DecidableEq

/-- `raw_metrics` dict literal of `_fetch_and_build`: both `pm25` and
`pm10` are assigned `aqi_data.get("aqi")`, and `humidity` is literally
`None`. -/
def raw_metrics_of (prof : Profile) (wb : WBData)
    (advisory temp aqi : Option ℚ) : Metric → Option ℚ
  | .life_expectancy => wb.life_expectancy
  | .gdp_per_capita => wb.gdp_per_capita
  | .population => prof.population
  | .pm25 => aqi
  | .pm10 => aqi
  | .travel_advisory_score => advisory
  | .temperature => temp
  | .humidity => none

/-- aggregator.py `_fetch_and_build` as a pure function of the provider
responses. `profile = none` covers the falsy cases of
`if not country_profile_data` (a `None` or empty profile); the inner
check `if not iso2_code` is falsy for both a missing and an empty ISO2
string. Returns the `(result, is_cache_hit, missing_metrics)` triple. -/
def fetch_and_build (country_code : String) (profile : Option Profile)
    (wb : WBData) (advisory temp aqi : Option ℚ)
    (risk_tolerance duration : String) :
    DictVal × Bool × List String :=
  match profile with
  | none => (DictVal.empty, false, ["country_profile"])
  | some prof =>
    if prof.iso2.getD "" = "" then (DictVal.empty, false, ["iso2_code"])
    else
      let raw := raw_metrics_of prof wb advisory temp aqi
      let missing_metrics :=
        (metricOrder.filter fun m => (raw m).isNone).map metricName
      let normalized := normalize_metrics raw
      let travel_risk_sub_score :=
        (1 - normalized .travel_advisory_score) * 100
      let health_infra_score :=
        (normalized .life_expectancy + normalized .gdp_per_capita) / 2 * 100
      let env_stability_score :=
        (normalized .pm25 + normalized .pm10 + normalized .temperature)
          / 3 * 100
      let weights := get_weights risk_tolerance duration
      let metrics_for_scoring :=
        metricOrder.map fun m => (metricName m, normalized m)
      let overall_score :=
        pyRound (score_country metrics_for_scoring weights) 1
      (DictVal.result
        { country_code := country_code
          country_name := prof.country_name
          overall_score := overall_score
          sub_scores :=
            { travel_risk := pyRound travel_risk_sub_score 0
              health_infra := pyRound health_infra_score 0
              env_stability := pyRound env_stability_score 0 } },
       false, missing_metrics)

/-! ### Result cache (Backend/services/cache_manager.py), per-key view -/

/-- cache_manager.py `set_cache`, restricted to one key: the entry is
overwritten iff `data is not None`; an empty dict is **not** `None` and
is stored. (TTL expiry does not occur inside the windows the claims
consider, so the entry itself is the state.) -/
def set_cache (cur : Option DictVal) (data : Option DictVal) :
    Option DictVal :=
  match data with
  | none => cur
  | some d => some d

/-- aggregator.py cache key: `f"{country_code}_{risk_tolerance}_{duration}"`. -/
def cache_key (country_code risk_tolerance duration : String) : String :=
  country_code ++ "_" ++ risk_tolerance ++ "_" ++ duration

/-! ### The alternate normalization module (Backend/utils/normalizer.py)

This module defines its own copies of the per-metric helpers (with a 0–5
advisory scale and a banded humidity curve) but no `_normalize_pm10`.
Its `normalize_metrics` resolves helper names against the module
namespace at call time, Python-style; an unresolvable name raises
`NameError`, modelled as `Except.error`. -/

/-- utils/normalizer.py `_normalize_life_expectancy`. -/
def utils_normalize_life_expectancy : Option ℚ → ℚ
  | none => 0.5
  | some v => max 0 (min 1 ((v - 50) / 35))

/-- utils/normalizer.py `_normalize_gdp_per_capita`. -/
def utils_normalize_gdp_per_capita : Option ℚ → ℚ
  | none => 0.5
  | some v => min (v / 80000) 1

/-- utils/normalizer.py `_normalize_population`. -/
def utils_normalize_population : Option ℚ → ℚ
  | none => 0.5
  | some v => 1 - min (v / 1500000000) 1

/-- utils/normalizer.py `_normalize_pm25`. -/
def utils_normalize_pm25 : Option ℚ → ℚ
  | none => 0.5
  | some v => 1 - min (v / 100) 1

/-- utils/normalizer.py `_normalize_travel_advisory_score` (0–5 scale). -/
def utils_normalize_travel_advisory_score : Option ℚ → ℚ
  | none => 0.5
  | some v => 1 - v / 5

/-- utils/normalizer.py `_normalize_temperature`. -/
def utils_normalize_temperature : Option ℚ → ℚ
  | none => 0.5
  | some v =>
      if 15 ≤ v ∧ v ≤ 28 then 1
      else if v < 15 then max 0 (1 - (15 - v) / 15)
      else max 0 (1 - (v - 28) / 12)

/-- utils/normalizer.py `_normalize_humidity`. -/
def utils_normalize_humidity : Option ℚ → ℚ
  | none => 0.5
  | some v =>
      if 30 ≤ v ∧ v ≤ 70 then 1
      else if v < 30 then max 0 (v / 30)
      else max 0 (1 - (v - 70) / 30)

/-- The function names `def`ined in utils/normalizer.py, with their
embeddings. `_normalize_pm10` is absent: the module never defines or
imports it. -/
def utils_defined : List (String × (Option ℚ → ℚ)) :=
  [("_normalize_life_expectancy", utils_normalize_life_expectancy),
   ("_normalize_gdp_per_capita", utils_normalize_gdp_per_capita),
   ("_normalize_population", utils_normalize_population),
   ("_normalize_pm25", utils_normalize_pm25),
   ("_normalize_travel_advisory_score", utils_normalize_travel_advisory_score),
   ("_normalize_temperature", utils_normalize_temperature),
   ("_normalize_humidity", utils_normalize_humidity)]

/-- Python call-by-name inside utils/normalizer.py: look the helper up in
the module namespace; a name that is not defined raises `NameError`. -/
def utils_call (fname : String) (v : Option ℚ) : Except String ℚ :=
  match utils_defined.find? (fun p => p.1 == fname) with
  | some p => Except.ok (p.2 v)
  | none => Except.error ("NameError: name " ++ fname ++ " is not defined")

/-- utils/normalizer.py `normalize_metrics`: the assignments run in
source order, so the dict is only produced if every helper name
resolves. -/
def utils_normalize_metrics (metrics : Metric → Option ℚ) :
    Except String (Metric → ℚ) := do
  let a ← utils_call "_normalize_life_expectancy" (metrics .life_expectancy)
  let b ← utils_call "_normalize_gdp_per_capita" (metrics .gdp_per_capita)
  let c ← utils_call "_normalize_population" (metrics .population)
  let d ← utils_call "_normalize_pm25" (metrics .pm25)
  let e ← utils_call "_normalize_pm10" (metrics .pm10)
  let f ←
    utils_call "_normalize_travel_advisory_score"
      (metrics .travel_advisory_score)
  let g ← utils_call "_normalize_temperature" (metrics .temperature)
  let h ← utils_call "_normalize_humidity" (metrics .humidity)
  Except.ok fun m =>
    match m with
    | .life_expectancy => a
    | .gdp_per_capita => b
    | .population => c
    | .pm25 => d
    | .pm10 => e
    | .travel_advisory_score => f
    | .temperature => g
    | .humidity => h

/-! ### `analyze_country` as a small-step system (aggregator.py 266–291)

asyncio schedules cooperatively: code between two `await`s runs
atomically. `analyze_country` therefore has exactly these atomic blocks,
for a fixed key:
* entry up to (a) returning the cached value, (b) suspending on the
  in-flight task (`await get_in_flight(key)`), or (c) `create_task` +
  `set_in_flight` and suspending on `await task`;
* the fetch task itself (its internal suspensions touch no shared state);
* owner resumption: `set_cache`, `return`, and the `finally`
  `remove_in_flight` (no `await` between them);
* waiter resumption: returning `(<task result triple>, False, [])`.

Two concurrent calls with the same `(countryCode, riskTolerance,
duration)` triple share one key; the system below interleaves their
atomic blocks in every order. `env` is the triple the fetch task yields,
`(result, is_cache_hit, missing_metrics)`. -/

/-- The value an `analyze_country` call hands back in its first
component: the owning call and a cache hit return the result dict; the
in-flight waiter returns the awaited task's *entire triple* (the source
is `return await get_in_flight(cache_key), False, []`). -/
inductive RetVal where
  | ofDict (d : DictVal)
  | ofTriple (d : DictVal) (hit : Bool) (missing : List String)
deriving DecidableEq

/-- The result dict carried by a returned value. -/
def payload : RetVal → DictVal
  | .ofDict d => d
  | .ofTriple d _ _ => d

/-- Control state of one `analyze_country` call. -/
inductive Phase where
  | ready
  | owner
  | waiter
  | finished (ret : RetVal × Bool × List String)
deriving DecidableEq

/-- Shared state for one key plus the control state of two calls.
`inflight` is `key in in_flight_requests`; `started` counts fetch
pipeline executions begun; `taskDone` is whether the (single, see
`reach_inv`) fetch task has completed; `cache` is the key's
`country_cache` entry. -/
structure Sys where
  p1 : Phase
  p2 : Phase
  inflight : Bool
  taskDone : Bool
  started : ℕ
  cache : Option DictVal
deriving DecidableEq

/-- Both calls about to enter `analyze_country`; nothing cached. -/
def initSys : Sys :=
  { p1 := .ready, p2 := .ready, inflight := false, taskDone := false,
    started := 0, cache := none }

/-- One atomic block of either call or of the fetch task. -/
inductive Step (env : DictVal × Bool × List String) : Sys → Sys → Prop where
  | hit1 {s : Sys} (v : DictVal) :
      s.p1 = .ready → s.cache = some v →
      Step env s { s with p1 := .finished (.ofDict v, true, []) }
  | wait1 {s : Sys} :
      s.p1 = .ready → s.cache = none → s.inflight = true →
      Step env s { s with p1 := .waiter }
  | own1 {s : Sys} :
      s.p1 = .ready → s.cache = none → s.inflight = false →
      Step env s { s with p1 := .owner, inflight := true,
                          started := s.started + 1 }
  | hit2 {s : Sys} (v : DictVal) :
      s.p2 = .ready → s.cache = some v →
      Step env s { s with p2 := .finished (.ofDict v, true, []) }
  | wait2 {s : Sys} :
      s.p2 = .ready → s.cache = none → s.inflight = true →
      Step env s { s with p2 := .waiter }
  | own2 {s : Sys} :
      s.p2 = .ready → s.cache = none → s.inflight = false →
      Step env s { s with p2 := .owner, inflight := true,
                          started := s.started + 1 }
  | taskRun {s : Sys} :
      1 ≤ s.started → s.taskDone = false →
      Step env s { s with taskDone := true }
  | ownerRes1 {s : Sys} :
      s.p1 = .owner → s.taskDone = true →
      Step env s { s with
        p1 := .finished (.ofDict env.1, env.2.1, env.2.2),
        cache := set_cache s.cache (some env.1),
        inflight := false }
  | ownerRes2 {s : Sys} :
      s.p2 = .owner → s.taskDone = true →
      Step env s { s with
        p2 := .finished (.ofDict env.1, env.2.1, env.2.2),
        cache := set_cache s.cache (some env.1),
        inflight := false }
  | waiterRes1 {s : Sys} :
      s.p1 = .waiter → s.taskDone = true →
      Step env s { s with
        p1 := .finished (.ofTriple env.1 env.2.1 env.2.2, false, []) }
  | waiterRes2 {s : Sys} :
      s.p2 = .waiter → s.taskDone = true →
      Step env s { s with
        p2 := .finished (.ofTriple env.1 env.2.1 env.2.2, false, []) }

/-- States reachable from `initSys` under any interleaving. -/
inductive Reach (env : DictVal × Bool × List String) : Sys → Prop where
  | init : Reach env initSys
  | next {s t : Sys} : Reach env s → Step env s t → Reach env t

/-- Both calls have returned. -/
def Terminal (s : Sys) : Prop :=
  (∃ r, s.p1 = Phase.finished r) ∧ (∃ r, s.p2 = Phase.finished r)

/-- Inductive invariant of the two-call system. -/
def Inv (env : DictVal × Bool × List String) (s : Sys) : Prop :=
  s.started ≤ 1
    ∧ (s.started = 1 → s.inflight = true ∨ s.cache ≠ none)
    ∧ (s.inflight = true → s.started = 1)
    ∧ (∀ v, s.cache = some v → s.started = 1 ∧ v = env.1)
    ∧ (s.p1 ≠ .ready → s.started = 1)
    ∧ (s.p2 ≠ .ready → s.started = 1)
    ∧ (s.inflight = true → s.p1 = .owner ∨ s.p2 = .owner)
    ∧ (∀ r, s.p1 = .finished r → payload r.1 = env.1)
    ∧ (∀ r, s.p2 = .finished r → payload r.1 = env.1)
    ∧ (s.taskDone = true → s.started = 1)

/-! ### Concrete scenario data for the claims -/

/-- A country profile for `"FRA"` whose identity fields are present but
whose population is absent, so that every metric falls back (the C7
scenario conditions the score on all-fallback normalized values). -/
def profFRA : Profile :=
  { country_name := some "France", iso2 := some "FR", lat := some 46,
    lon := some 2, population := none }

/-- The `analyze("FRA", "low", "short-term")` fetch pipeline with the
identity fetch succeeding and all four provider fetches failing. -/
def fbC7 : DictVal × Bool × List String :=
  fetch_and_build "FRA" (some profFRA) ⟨none, none⟩ none none none
    "low" "short-term"

/-- The raw metrics of the C7 run (all absent). -/
def rawC7 : Metric → Option ℚ :=
  raw_metrics_of profFRA ⟨none, none⟩ none none none

/-- Its normalized metrics. -/
def normC7 : Metric → ℚ := normalize_metrics rawC7

/-- Its `metrics_for_scoring` dict. -/
def msC7 : List (String × ℚ) :=
  metricOrder.map fun m => (metricName m, normC7 m)

/-- The `("low", "short-term")` weight mapping. -/
def WLow : List (String × ℚ) := get_weights "low" "short-term"

/-- The result dict that run builds (proved equal to `fbC7.1` below). -/
def resA : AnalysisResult :=
  { country_code := "FRA", country_name := some "France",
    overall_score := 197 / 5,
    sub_scores :=
      { travel_risk := 80, health_infra := 50, env_stability := 50 } }

/-- Fetch-task outcome driving the concrete traces: the all-providers-fail
run above. -/
def envA : DictVal × Bool × List String := fbC7

/-- Fetch-task outcome when the identity fetch itself fails. -/
def envF : DictVal × Bool × List String :=
  fetch_and_build "FRA" none ⟨none, none⟩ none none none "low" "short-term"

/-- Call 1 registered as owner, call 2 not yet entered. -/
def sOwn : Sys :=
  { p1 := .owner, p2 := .ready, inflight := true, taskDone := false,
    started := 1, cache := none }

/-- The fetch task has completed, the owner not yet resumed. -/
def sTask : Sys := { sOwn with taskDone := true }

/-- The owner has returned: cache populated, in-flight entry removed. -/
def sysDone (env : DictVal × Bool × List String) : Sys :=
  { p1 := .finished (.ofDict env.1, env.2.1, env.2.2), p2 := .ready,
    inflight := false, taskDone := true, started := 1,
    cache := some env.1 }

/-- Call 2 then ran and hit the cache. -/
def sBoth : Sys :=
  { sysDone envA with p2 := .finished (.ofDict envA.1, true, []) }

/-- Call 2 suspended on the in-flight task while call 1 owns it. -/
def sWait : Sys := { sOwn with p2 := .waiter }

/-- ... and the task completed before either call resumed. -/
def sWaitTask : Sys := { sWait with taskDone := true }

/-- Call 2 (the waiter) resumed first. -/
def sC5 : Sys :=
  { sWaitTask with
    p2 := .finished (.ofTriple envA.1 envA.2.1 envA.2.2, false, []) }

theorem step_inv {env : DictVal × Bool × List String} {s t : Sys}
    (ih : Inv env s) (hs : Step env s t) : Inv env t := by
  obtain ⟨i1, i2, i3, i4, i5, i6, i7, i8, i9, i10⟩ := ih
  cases hs with
  | hit1 v hp hc =>
      obtain ⟨hs1, hv⟩ := i4 v hc
      refine ⟨?_, ?_, ?_, ?_, ?_, ?_, ?_, ?_, ?_, ?_⟩ <;> dsimp only
      · exact i1
      · exact i2
      · exact i3
      · exact i4
      · exact fun _ => hs1
      · exact i6
      · intro hf
        rcases i7 hf with h | h
        · rw [hp] at h; cases h
        · exact Or.inr h
      · intro r hr
        injection hr with h
        subst h
        exact hv
      · exact i9
      · exact i10
  | wait1 hp hc hf =>
      refine ⟨?_, ?_, ?_, ?_, ?_, ?_, ?_, ?_, ?_, ?_⟩ <;> dsimp only
      · exact i1
      · exact i2
      · exact i3
      · exact i4
      · exact fun _ => i3 hf
      · exact i6
      · intro hf2
        rcases i7 hf2 with h | h
        · rw [hp] at h; cases h
        · exact Or.inr h
      · intro r hr; cases hr
      · exact i9
      · exact i10
  | own1 hp hc hf =>
      rcases Nat.eq_or_lt_of_le i1 with h1 | h1
      · rcases i2 h1 with h2 | h2
        · rw [hf] at h2; cases h2
        · exact absurd hc h2
      · refine ⟨?_, ?_, ?_, ?_, ?_, ?_, ?_, ?_, ?_, ?_⟩ <;> dsimp only
        · omega
        · exact fun _ => Or.inl rfl
        · intro _; omega
        · intro v hv; rw [hc] at hv; cases hv
        · intro _; omega
        · intro _; omega
        · exact fun _ => Or.inl rfl
        · intro r hr; cases hr
        · exact i9
        · intro _; omega
  | hit2 v hp hc =>
      obtain ⟨hs1, hv⟩ := i4 v hc
      refine ⟨?_, ?_, ?_, ?_, ?_, ?_, ?_, ?_, ?_, ?_⟩ <;> dsimp only
      · exact i1
      · exact i2
      · exact i3
      · exact i4
      · exact i5
      · exact fun _ => hs1
      · intro hf
        rcases i7 hf with h | h
        · exact Or.inl h
        · rw [hp] at h; cases h
      · exact i8
      · intro r hr
        injection hr with h
        subst h
        exact hv
      · exact i10
  | wait2 hp hc hf =>
      refine ⟨?_, ?_, ?_, ?_, ?_, ?_, ?_, ?_, ?_, ?_⟩ <;> dsimp only
      · exact i1
      · exact i2
      · exact i3
      · exact i4
      · exact i5
      · exact fun _ => i3 hf
      · intro hf2
        rcases i7 hf2 with h | h
        · exact Or.inl h
        · rw [hp] at h; cases h
      · exact i8
      · intro r hr; cases hr
      · exact i10
  | own2 hp hc hf =>
      rcases Nat.eq_or_lt_of_le i1 with h1 | h1
      · rcases i2 h1 with h2 | h2
        · rw [hf] at h2; cases h2
        · exact absurd hc h2
      · refine ⟨?_, ?_, ?_, ?_, ?_, ?_, ?_, ?_, ?_, ?_⟩ <;> dsimp only
        · omega
        · exact fun _ => Or.inl rfl
        · intro _; omega
        · intro v hv; rw [hc] at hv; cases hv
        · intro _; omega
        · intro _; omega
        · exact fun _ => Or.inr rfl
        · exact i8
        · intro r hr; cases hr
        · intro _; omega
  | taskRun h1 h2 =>
      have hs1 : _ := i1
      refine ⟨?_, ?_, ?_, ?_, ?_, ?_, ?_, ?_, ?_, ?_⟩ <;> dsimp only
      · exact i1
      · exact i2
      · exact i3
      · exact i4
      · exact i5
      · exact i6
      · exact i7
      · exact i8
      · exact i9
      · intro _; omega
  | ownerRes1 hp hd =>
      have hs1 := i5 (by simp [hp])
      refine ⟨?_, ?_, ?_, ?_, ?_, ?_, ?_, ?_, ?_, ?_⟩ <;> dsimp only
      · exact i1
      · intro _
        exact Or.inr (by simp [set_cache])
      · intro h; cases h
      · intro v hv
        have h2 : some env.1 = some v := by simpa [set_cache] using hv
        injection h2 with h3
        exact ⟨hs1, h3.symm⟩
      · exact fun _ => hs1
      · exact i6
      · intro h; cases h
      · intro r hr
        injection hr with h
        subst h
        rfl
      · exact i9
      · exact i10
  | ownerRes2 hp hd =>
      have hs1 := i6 (by simp [hp])
      refine ⟨?_, ?_, ?_, ?_, ?_, ?_, ?_, ?_, ?_, ?_⟩ <;> dsimp only
      · exact i1
      · intro _
        exact Or.inr (by simp [set_cache])
      · intro h; cases h
      · intro v hv
        have h2 : some env.1 = some v := by simpa [set_cache] using hv
        injection h2 with h3
        exact ⟨hs1, h3.symm⟩
      · exact i5
      · exact fun _ => hs1
      · intro h; cases h
      · exact i8
      · intro r hr
        injection hr with h
        subst h
        rfl
      · exact i10
  | waiterRes1 hp hd =>
      have hs1 := i5 (by simp [hp])
      refine ⟨?_, ?_, ?_, ?_, ?_, ?_, ?_, ?_, ?_, ?_⟩ <;> dsimp only
      · exact i1
      · exact i2
      · exact i3
      · exact i4
      · exact fun _ => hs1
      · exact i6
      · intro hf
        rcases i7 hf with h | h
        · rw [hp] at h; cases h
        · exact Or.inr h
      · intro r hr
        injection hr with h
        subst h
        rfl
      · exact i9
      · exact i10
  | waiterRes2 hp hd =>
      have hs1 := i6 (by simp [hp])
      refine ⟨?_, ?_, ?_, ?_, ?_, ?_, ?_, ?_, ?_, ?_⟩ <;> dsimp only
      · exact i1
      · exact i2
      · exact i3
      · exact i4
      · exact i5
      · exact fun _ => hs1
      · intro hf
        rcases i7 hf with h | h
        · exact Or.inl h
        · rw [hp] at h; cases h
      · exact i8
      · intro r hr
        injection hr with h
        subst h
        rfl
      · exact i10

theorem reach_inv (env : DictVal × Bool × List String) {s : Sys}
    (h : Reach env s) : Inv env s := by
  induction h with
  | init =>
      refine ⟨?_, ?_, ?_, ?_, ?_, ?_, ?_, ?_, ?_, ?_⟩ <;> simp [initSys]
  | next _ hs ih => exact step_inv ih hs

/-! ### Reachability of the concrete traces -/

theorem reach_sOwn (env : DictVal × Bool × List String) : Reach env sOwn :=
  Reach.next Reach.init (Step.own1 rfl rfl rfl)

theorem reach_sTask (env : DictVal × Bool × List String) : Reach env sTask :=
  Reach.next (reach_sOwn env) (Step.taskRun (by simp [sOwn]) rfl)

theorem reach_sysDone (env : DictVal × Bool × List String) :
    Reach env (sysDone env) :=
  Reach.next (reach_sTask env) (Step.ownerRes1 rfl rfl)

theorem reach_sBoth : Reach envA sBoth :=
  Reach.next (reach_sysDone envA) (Step.hit2 envA.1 rfl rfl)

theorem reach_sC5 : Reach envA sC5 :=
  Reach.next
    (Reach.next (Reach.next (reach_sOwn envA) (Step.wait2 rfl rfl rfl))
      (Step.taskRun (by simp [sWait, sOwn]) rfl))
    (Step.waiterRes2 rfl rfl)

/-! ### Claim theorems -/

/-- C1: for two concurrent `analyze` calls with identical
`(countryCode, riskTolerance, duration)` arguments, in every reachable
state of every interleaving at most one fetch pipeline execution has been
triggered; once both calls have completed, exactly one execution was
triggered, and both calls' returned payloads carry that single
execution's result dict (the second caller shares the first call's
computation). The in-flight registry is a Python dict, so at most one
handle per key exists by construction; `started ≤ 1` is the associated
at-most-one-fetch invariant. -/
theorem dedup_single_fetch (env : DictVal × Bool × List String) (s : Sys)
    (h : Reach env s) :
    s.started ≤ 1 ∧
      (Terminal s →
        s.started = 1 ∧
          (∀ r, s.p1 = Phase.finished r → payload r.1 = env.1) ∧
          (∀ r, s.p2 = Phase.finished r → payload r.1 = env.1)) := by
  obtain ⟨i1, i2, i3, i4, i5, i6, i7, i8, i9, i10⟩ := reach_inv env h
  refine ⟨i1, ?_⟩
  rintro ⟨⟨r1, hr1⟩, ⟨r2, hr2⟩⟩
  exact ⟨i5 (by simp [hr1]), i8, i9⟩

/-- Witness for C1: the trace where call 1 owns the fetch, completes, and
call 2 then hits the cache ends with exactly one fetch execution. -/
theorem dedup_single_fetch_witness : sBoth.started = 1 := by
  have h := dedup_single_fetch envA sBoth reach_sBoth
  exact (h.2 ⟨⟨_, rfl⟩, ⟨_, rfl⟩⟩).1

/-- C6: from any reachable state in which the first call has returned and
the second has not yet entered, whatever step the second call's entry
takes returns `wasCacheHit = true` together with exactly the result dict
the fetch produced — which is also the first call's payload — and starts
no new fetch. Within the TTL window the cached entry is the state, so
this is the idempotence of a repeated `analyze` call. -/
theorem cache_hit_idempotent (env : DictVal × Bool × List String)
    (s s' : Sys) (r1 : RetVal × Bool × List String)
    (hre : Reach env s) (h1 : s.p1 = Phase.finished r1)
    (h2 : s.p2 = Phase.ready) (hs : Step env s s') :
    s'.p2 = Phase.ready ∨
      (s'.p2 = Phase.finished (RetVal.ofDict env.1, true, []) ∧
        payload r1.1 = env.1 ∧ s'.started = s.started) := by
  obtain ⟨i1, i2, i3, i4, i5, i6, i7, i8, i9, i10⟩ := reach_inv env hre
  cases hs with
  | hit1 v hp hc => rw [h1] at hp; cases hp
  | wait1 hp hc hf => rw [h1] at hp; cases hp
  | own1 hp hc hf => rw [h1] at hp; cases hp
  | hit2 v hp hc =>
      obtain ⟨hs1, hv⟩ := i4 v hc
      subst hv
      exact Or.inr ⟨rfl, i8 r1 h1, rfl⟩
  | wait2 hp hc hf =>
      rcases i7 hf with h | h
      · rw [h1] at h; cases h
      · rw [h2] at h; cases h
  | own2 hp hc hf =>
      have hstart := i5 (by simp [h1])
      rcases i2 hstart with h | h
      · rw [hf] at h; cases h
      · exact absurd hc h
  | taskRun hge hdone => exact Or.inl h2
  | ownerRes1 hp hd => rw [h1] at hp; cases hp
  | ownerRes2 hp hd => rw [h2] at hp; cases hp
  | waiterRes1 hp hd => rw [h1] at hp; cases hp
  | waiterRes2 hp hd => rw [h2] at hp; cases hp

/-- Witness for C6: the concrete second call after the completed
all-providers-fail run of `analyze("FRA","low","short-term")`. -/
theorem cache_hit_idempotent_witness :
    sBoth.p2 = Phase.ready ∨
      (sBoth.p2 = Phase.finished (RetVal.ofDict envA.1, true, []) ∧
        payload (RetVal.ofDict envA.1, envA.2.1, envA.2.2).1 = envA.1 ∧
        sBoth.started = (sysDone envA).started) :=
  cache_hit_idempotent envA (sysDone envA) sBoth
    (RetVal.ofDict envA.1, envA.2.1, envA.2.2) (reach_sysDone envA) rfl rfl
    (Step.hit2 envA.1 rfl rfl)

/-- C5 (code bug): in the interleaving where the second call suspends on
the in-flight task, it resumes with first component
`RetVal.ofTriple env.1 env.2.1 env.2.2` — the awaited task's entire
`(result, is_cache_hit, missing_metrics)` triple — rather than the
owning call's result dict `RetVal.ofDict env.1`: the source line is
`return await get_in_flight(cache_key), False, []`, which fails to
unpack the task result, while the caller in `Backend/server.py`
destructures the first component as the result dict. -/
theorem inflight_waiter_wraps_triple :
    Reach envA sC5 ∧
      sC5.p2 =
        Phase.finished (RetVal.ofTriple envA.1 envA.2.1 envA.2.2, false, []) ∧
      (∀ d : DictVal,
        RetVal.ofTriple envA.1 envA.2.1 envA.2.2 ≠ RetVal.ofDict d) :=
  ⟨reach_sC5, rfl, fun _ h => nomatch h⟩

/-- C3 (counterexample): after a run whose identity fetch fails, the
result cache for the key **is** populated — with the empty result dict —
because `set_cache` skips only Python `None`, and `_fetch_and_build`
returns `{}`, not `None`; a put with the empty value is not a no-op. -/
theorem cache_populated_on_identity_failure :
    envF = (DictVal.empty, false, ["country_profile"]) ∧
      Reach envF (sysDone envF) ∧
      (sysDone envF).cache = some DictVal.empty ∧
      set_cache none (some DictVal.empty) ≠ none :=
  ⟨rfl, reach_sysDone envF, rfl, fun h => nomatch h⟩

/-- C3 (amended): when the identity fetch fails, `analyze` returns the
empty result plus the `country_profile` missing-metric marker, but the
cache **is** populated with that empty result: `set_cache` is a no-op
only when its value is `None` (absent), not when it is empty. -/
theorem identity_failure_empty_result_cached :
    (∀ c : Option DictVal, set_cache c none = c) ∧
      envF = (DictVal.empty, false, ["country_profile"]) ∧
      Reach envF (sysDone envF) ∧
      (sysDone envF).p1 =
        Phase.finished
          (RetVal.ofDict DictVal.empty, false, ["country_profile"]) ∧
      (sysDone envF).cache = some DictVal.empty :=
  ⟨fun _ => rfl, rfl, reach_sysDone envF, rfl, rfl⟩

/-- C2: for every `(riskTolerance, duration)` pair in
`{low, moderate, high} × {short-term, long-term}`, the weight mapping the
Weighting Engine returns sums to 1.0 within `1e-9` (in fact exactly: the
renormalization divides each weight by the positive total). -/
theorem weights_sum_one (rt du : String)
    (hrt : rt = "low" ∨ rt = "moderate" ∨ rt = "high")
    (hdu : du = "short-term" ∨ du = "long-term") :
    |wsum (get_weights rt du) - 1| ≤ 1 / 1000000000 := by
  rcases hrt with rfl | rfl | rfl <;> rcases hdu with rfl | rfl <;>
    · simp [get_weights, wset, wmul, wsum, wlookup]
      norm_num

/-- Witness for C2 at `("low", "short-term")`. -/
theorem weights_sum_one_witness :
    |wsum (get_weights "low" "short-term") - 1| ≤ 1 / 1000000000 :=
  weights_sum_one "low" "short-term" (Or.inl rfl) (Or.inl rfl)

/-- C4: the active normalization functions reproduce the spec table: an
absent value yields the per-metric fallback constant (0.5 for every
metric except `travel_advisory_score`, which yields 0.2), and the fixed
temperature formulas give `normalize("temperature", 21.5) = 1`,
`normalize("temperature", 0) = 0`, `normalize("temperature", 40) = 0`. -/
theorem normalization_table_matches :
    (∀ m : Metric, normalize_metrics (fun _ => none) m =
        if m = Metric.travel_advisory_score then 0.2 else 0.5) ∧
      normalize_temperature (some 21.5) = 1 ∧
      normalize_temperature (some 0) = 0 ∧
      normalize_temperature (some 40) = 0 := by
  refine ⟨?_, ?_, ?_, ?_⟩
  · intro m
    cases m <;>
      simp [normalize_metrics, normalize_life_expectancy,
        normalize_gdp_per_capita, normalize_population, normalize_pm25,
        normalize_pm10, normalize_travel_advisory_score,
        normalize_temperature, normalize_humidity]
  · norm_num [normalize_temperature]
  · norm_num [normalize_temperature]
  · norm_num [normalize_temperature]

/-- A raw-metrics mapping with a negative GDP value, as C8's "no
restriction on the raw values' range" permits. -/
def rawNegGdp : Metric → Option ℚ := fun m =>
  if m = Metric.gdp_per_capita then some (-80000) else none

/-- C8 (counterexample): with no restriction on the raw range, the active
normalization can leave `[0,1]`: a raw GDP of `-80000` normalizes to
`-1`. -/
theorem normalized_out_of_range_on_negative_gdp :
    normalize_metrics rawNegGdp Metric.gdp_per_capita = -1 ∧
      ¬(0 ≤ (-1 : ℚ)) := by
  constructor
  · norm_num [normalize_metrics, rawNegGdp, normalize_gdp_per_capita]
  · norm_num

/-- C8 (amended): the normalized values all lie in `[0,1]` provided each
present raw value lies in its provider's documented range — nonnegative
for `gdp_per_capita`, `population`, `pm25` and `pm10`, and within the
0–100 advisory scale for `travel_advisory_score`; `life_expectancy`,
`temperature` and `humidity` need no restriction. -/
theorem normalized_in_range_on_domain (raw : Metric → Option ℚ)
    (hgdp : ∀ v, raw Metric.gdp_per_capita = some v → 0 ≤ v)
    (hpop : ∀ v, raw Metric.population = some v → 0 ≤ v)
    (hpm25 : ∀ v, raw Metric.pm25 = some v → 0 ≤ v)
    (hpm10 : ∀ v, raw Metric.pm10 = some v → 0 ≤ v)
    (hadv : ∀ v, raw Metric.travel_advisory_score = some v →
      0 ≤ v ∧ v ≤ 100) :
    ∀ m : Metric,
      0 ≤ normalize_metrics raw m ∧ normalize_metrics raw m ≤ 1 := by
  intro m
  cases m with
  | life_expectancy =>
      simp only [normalize_metrics]
      cases h : raw Metric.life_expectancy with
      | none => norm_num [normalize_life_expectancy]
      | some v =>
          simp only [normalize_life_expectancy]
          constructor
          · exact le_max_left 0 _
          · exact max_le (by norm_num) (min_le_left 1 _)
  | gdp_per_capita =>
      simp only [normalize_metrics]
      cases h : raw Metric.gdp_per_capita with
      | none => norm_num [normalize_gdp_per_capita]
      | some v =>
          have hv := hgdp v h
          simp only [normalize_gdp_per_capita]
          constructor
          · exact le_min (by positivity) (by norm_num)
          · exact min_le_right _ 1
  | population =>
      simp only [normalize_metrics]
      cases h : raw Metric.population with
      | none => norm_num [normalize_population]
      | some v =>
          have hv := hpop v h
          simp only [normalize_population]
          constructor
          · have h1 : min (v / 1500000000) (1 : ℚ) ≤ 1 := min_le_right _ _
            linarith
          · have h1 : (0 : ℚ) ≤ min (v / 1500000000) 1 :=
              le_min (by positivity) (by norm_num)
            linarith
  | pm25 =>
      simp only [normalize_metrics]
      cases h : raw Metric.pm25 with
      | none => norm_num [normalize_pm25]
      | some v =>
          have hv := hpm25 v h
          simp only [normalize_pm25]
          constructor
          · have h1 : min (v / 100) (1 : ℚ) ≤ 1 := min_le_right _ _
            linarith
          · have h1 : (0 : ℚ) ≤ min (v / 100) 1 :=
              le_min (by positivity) (by norm_num)
            linarith
  | pm10 =>
      simp only [normalize_metrics]
      cases h : raw Metric.pm10 with
      | none => norm_num [normalize_pm10]
      | some v =>
          have hv := hpm10 v h
          simp only [normalize_pm10]
          constructor
          · have h1 : min (v / 100) (1 : ℚ) ≤ 1 := min_le_right _ _
            linarith
          · have h1 : (0 : ℚ) ≤ min (v / 100) 1 :=
              le_min (by positivity) (by norm_num)
            linarith
  | travel_advisory_score =>
      simp only [normalize_metrics]
      cases h : raw Metric.travel_advisory_score with
      | none => norm_num [normalize_travel_advisory_score]
      | some v =>
          obtain ⟨hv0, hv100⟩ := hadv v h
          simp only [normalize_travel_advisory_score]
          constructor <;> [linarith; linarith]
  | temperature =>
      simp only [normalize_metrics]
      cases h : raw Metric.temperature with
      | none => norm_num [normalize_temperature]
      | some v =>
          simp only [normalize_temperature]
          split_ifs with hband hlo
          · norm_num
          · constructor
            · exact le_max_left 0 _
            · refine max_le (by norm_num) ?_
              have hnn : (0 : ℚ) ≤ (15 - v) / 15 :=
                div_nonneg (by linarith) (by norm_num)
              linarith
          · have h15 : (15 : ℚ) ≤ v := le_of_not_lt hlo
            have h28 : (28 : ℚ) < v := by
              by_contra hc
              exact hband ⟨h15, le_of_not_lt hc⟩
            constructor
            · exact le_max_left 0 _
            · refine max_le (by norm_num) ?_
              have hnn : (0 : ℚ) ≤ (v - 28) / 12 :=
                div_nonneg (by linarith) (by norm_num)
              linarith
  | humidity =>
      simp only [normalize_metrics]
      cases h : raw Metric.humidity with
      | none => norm_num [normalize_humidity]
      | some v => norm_num [normalize_humidity]

/-- Witness for C8 (amended): the all-absent raw mapping. -/
theorem normalized_in_range_on_domain_witness :
    0 ≤ normalize_metrics (fun _ => none) Metric.pm25 ∧
      normalize_metrics (fun _ => none) Metric.pm25 ≤ 1 :=
  normalized_in_range_on_domain (fun _ => none)
    (fun _ h => nomatch h) (fun _ h => nomatch h) (fun _ h => nomatch h)
    (fun _ h => nomatch h) (fun _ h => nomatch h) Metric.pm25

/-- C9: the alternate module `utils/normalizer.py` is unusable: its
`normalize_metrics` references `_normalize_pm10`, which the module
neither defines nor imports, so every call raises `NameError` before
producing a dict; only the aggregator's copy of the table can execute. -/
theorem utils_normalizer_always_name_error (raw : Metric → Option ℚ) :
    utils_normalize_metrics raw =
      Except.error "NameError: name _normalize_pm10 is not defined" := rfl

/-- C10: in every built result, the raw `pm25` and `pm10` entries are the
same single `aqi` value (or both absent), and their normalizations agree,
so the two air-quality terms of the `env_stability` sub-score always
coincide. -/
theorem pm25_pm10_coincide (prof : Profile) (wb : WBData)
    (advisory temp aqi : Option ℚ) :
    raw_metrics_of prof wb advisory temp aqi Metric.pm25 =
        raw_metrics_of prof wb advisory temp aqi Metric.pm10 ∧
      normalize_metrics (raw_metrics_of prof wb advisory temp aqi)
          Metric.pm25 =
        normalize_metrics (raw_metrics_of prof wb advisory temp aqi)
          Metric.pm10 :=
  ⟨rfl, by cases aqi <;> rfl⟩

/-! ### Evaluation of the C7 run -/

theorem pyRound_lt_half (q : ℚ) (n : ℕ) (f : ℤ) (h1 : ⌊q * 10 ^ n⌋ = f)
    (h2 : q * 10 ^ n - (f : ℚ) < 1 / 2) : pyRound q n = (f : ℚ) / 10 ^ n := by
  simp only [pyRound, roundHalfEven]
  rw [h1, if_pos h2]

theorem WLow_eq :
    WLow = [("life_expectancy", 16 / 119), ("gdp_per_capita", 15 / 119),
      ("population", 4 / 119), ("pm25", 24 / 119),
      ("travel_advisory_score", 6 / 17), ("temperature", 18 / 119),
      ("humidity", 0)] := by
  simp [WLow, get_weights, wset, wmul, wsum]
  norm_num

theorem normC7_eq (m : Metric) :
    normC7 m = if m = Metric.travel_advisory_score then 0.2 else 0.5 := by
  cases m <;> rfl

theorem scoreC7_sum :
    (msC7.map fun p => p.2 * wlookup WLow p.1).sum * 100 = 4690 / 119 := by
  rw [WLow_eq]
  simp [msC7, metricOrder, metricName, normC7_eq, wlookup, List.find?]
  norm_num

theorem scoreC7 : score_country msC7 WLow = 3941 / 100 := by
  calc score_country msC7 WLow
      = pyRound ((msC7.map fun p => p.2 * wlookup WLow p.1).sum * 100) 2 :=
        rfl
    _ = pyRound (4690 / 119) 2 := by rw [scoreC7_sum]
    _ = ((3941 : ℤ) : ℚ) / 10 ^ 2 :=
        pyRound_lt_half _ _ 3941 (by norm_num) (by norm_num)
    _ = 3941 / 100 := by norm_num

theorem overallC7 : pyRound (score_country msC7 WLow) 1 = 197 / 5 := by
  rw [scoreC7]
  calc pyRound (3941 / 100) 1
      = ((394 : ℤ) : ℚ) / 10 ^ 1 :=
        pyRound_lt_half _ _ 394 (by norm_num) (by norm_num)
    _ = 197 / 5 := by norm_num

theorem subTravelC7 :
    pyRound ((1 - normC7 Metric.travel_advisory_score) * 100) 0 = 80 := by
  have h : (1 - normC7 Metric.travel_advisory_score) * 100 = 80 := by
    rw [normC7_eq]
    norm_num
  rw [h]
  have h2 := pyRound_lt_half 80 0 80 (by norm_num) (by norm_num)
  rw [h2]
  norm_num

theorem subHealthC7 :
    pyRound ((normC7 Metric.life_expectancy + normC7 Metric.gdp_per_capita)
      / 2 * 100) 0 = 50 := by
  have h : (normC7 Metric.life_expectancy + normC7 Metric.gdp_per_capita)
      / 2 * 100 = 50 := by
    have h1 : normC7 Metric.life_expectancy = 0.5 := rfl
    have h2 : normC7 Metric.gdp_per_capita = 0.5 := rfl
    rw [h1, h2]
    norm_num
  rw [h]
  have h2 := pyRound_lt_half 50 0 50 (by norm_num) (by norm_num)
  rw [h2]
  norm_num

theorem subEnvC7 :
    pyRound ((normC7 Metric.pm25 + normC7 Metric.pm10 +
      normC7 Metric.temperature) / 3 * 100) 0 = 50 := by
  have h : (normC7 Metric.pm25 + normC7 Metric.pm10 +
      normC7 Metric.temperature) / 3 * 100 = 50 := by
    have h1 : normC7 Metric.pm25 = 0.5 := rfl
    have h2 : normC7 Metric.pm10 = 0.5 := rfl
    have h3 : normC7 Metric.temperature = 0.5 := rfl
    rw [h1, h2, h3]
    norm_num
  rw [h]
  have h2 := pyRound_lt_half 50 0 50 (by norm_num) (by norm_num)
  rw [h2]
  norm_num

/-- The C7 run builds exactly `resA` as its result dict. -/
theorem fbC7_result : fbC7.1 = DictVal.result resA := by
  have hb : fbC7.1 = DictVal.result
      { country_code := "FRA", country_name := some "France",
        overall_score := pyRound (score_country msC7 WLow) 1,
        sub_scores :=
          { travel_risk :=
              pyRound ((1 - normC7 Metric.travel_advisory_score) * 100) 0,
            health_infra :=
              pyRound ((normC7 Metric.life_expectancy +
                normC7 Metric.gdp_per_capita) / 2 * 100) 0,
            env_stability :=
              pyRound ((normC7 Metric.pm25 + normC7 Metric.pm10 +
                normC7 Metric.temperature) / 3 * 100) 0 } } := rfl
  rw [hb, overallC7, subTravelC7, subHealthC7, subEnvC7]
  rfl

/-- The C7 run misses every raw metric, population included (this
profile has no population entry). -/
theorem fbC7_missing :
    fbC7.2.2 =
      ["life_expectancy", "gdp_per_capita", "population", "pm25", "pm10",
       "travel_advisory_score", "temperature", "humidity"] := rfl

/-- C7 (counterexample): in the `analyze("FRA","low","short-term")`
scenario with all four provider fetches failing, the overall score
computed purely from the fallback-normalized values with the "low"
weight table is `39.4`, not `50.0`: the advisory fallback is 0.2, not
0.5, and its renormalized weight is `42/119`, so the weighted sum is
`0.5 - 0.3 · 42/119 ≈ 0.3941`, rounded to `39.4`. -/
theorem fallback_score_not_fifty :
    fbC7.1 = DictVal.result resA ∧ resA.overall_score = 197 / 5 ∧
      (197 / 5 : ℚ) ≠ 50 :=
  ⟨fbC7_result, rfl, by norm_num⟩

/-- C7 (amended): the scenario returns a non-empty result whose
`missing_metrics` contains the seven listed metrics (and additionally
`population`, absent from this profile), and whose overall score equals
`39.4`. -/
theorem fallback_run_result :
    fbC7.1 ≠ DictVal.empty ∧
      "life_expectancy" ∈ fbC7.2.2 ∧ "gdp_per_capita" ∈ fbC7.2.2 ∧
      "travel_advisory_score" ∈ fbC7.2.2 ∧ "temperature" ∈ fbC7.2.2 ∧
      "pm25" ∈ fbC7.2.2 ∧ "pm10" ∈ fbC7.2.2 ∧ "humidity" ∈ fbC7.2.2 ∧
      fbC7.1 = DictVal.result resA ∧ resA.overall_score = 197 / 5 := by
  refine ⟨?_, ?_, ?_, ?_, ?_, ?_, ?_, ?_, fbC7_result, rfl⟩
  · rw [fbC7_result]
    exact fun h => nomatch h
  all_goals rw [fbC7_missing]
  all_goals simp

end Geosift
